import Mathlib

/-!
Shallow embedding of the chia-plot-sink-multi placement engine
(plotpath.go, plotgroup in src/unnamed/part_001, sink.go multi-group
version, codec in src/unnamed/part_002), together with theorems that
settle the frozen claims about the specification.

Machine integers are modelled as `Int` (Go `int64` counters) and `Nat`
(Go `uint64` byte sizes); none of the claims exercises 64-bit overflow.
The per-connection handler is modelled sequentially: one connection's
view of the state, which is the level at which every claim is phrased.
-/

/-- One managed directory (struct `plotPath`, plotpath.go). The Go struct's
`sync.Mutex` is modelled by the boolean `mutexHeld`: `TryLock` succeeds
exactly when the mutex is not currently held. -/
structure PlotPath where
  path : String
  transfers : Int
  busy : Bool
  paused : Bool
  freeSpace : Nat
  totalSpace : Nat
  mutexHeld : Bool
  deriving DecidableEq

/-- A named bucket of plot paths (struct `plotGroup`, src/unnamed/part_001). -/
structure PlotGroup where
  name : String
  concurrency : Int
  transfers : Int
  sortedPlots : List PlotPath
  deriving DecidableEq

/-- The loop body of `plotGroup.pickPlot` (src/unnamed/part_001 lines
118-132): walk the sorted plots, skip busy, skip paused, abort with nothing
when `size > v.freeSpace`, otherwise return the candidate. -/
def pickFromSorted (size : Nat) : List PlotPath → Option PlotPath
  | [] => none
  | v :: rest =>
    if v.busy then pickFromSorted size rest
    else if v.paused then pickFromSorted size rest
    else if size > v.freeSpace then none
    else some v

/-- `plotGroup.pickPlot` (src/unnamed/part_001 lines 110-133): admission
check `transfers >= concurrency` returns nothing, otherwise the walk over
`sortedPlots`. The same method serves cache and destination groups. -/
def PlotGroup.pickPlot (pg : PlotGroup) (size : Nat) : Option PlotPath :=
  if pg.transfers ≥ pg.concurrency then none
  else pickFromSorted size pg.sortedPlots

/-- The top-level sink (struct `sink`, sink.go multi-group version). -/
structure Sink where
  sortedGroups : List PlotGroup
  cacheGroup : PlotGroup
  deriving DecidableEq

/-- The loop of `sink.pickPlot` (src/unnamed/part_001 lines 150-161):
first group whose `pickPlot` yields a path wins. -/
def pickFromGroups (size : Nat) : List PlotGroup → Option (PlotGroup × PlotPath)
  | [] => none
  | pg :: rest =>
    match pg.pickPlot size with
    | some pp => some (pg, pp)
    | none => pickFromGroups size rest

/-- `sink.pickPlot` (src/unnamed/part_001 lines 150-161). The Go function
returns `(nil, nil)` when no group yields a path; that is `none` here. -/
def Sink.pickPlot (s : Sink) (size : Nat) : Option (PlotGroup × PlotPath) :=
  pickFromGroups size s.sortedGroups

/-- Outcome of the placement phase of `handleConnection` (sink.go lines
309-361), i.e. everything between decoding the 8-byte size header and the
call to `handleTransfer` (whose first action writes the `0x01` ack byte). -/
inductive ConnOutcome where
  /-- Placement fully succeeded: the handler proceeds into `handleTransfer`,
  which immediately writes the single `0x01` go-ahead byte. -/
  | acked (pg : PlotGroup) (plot : PlotPath) (cachePlot : PlotPath)
  /-- `conn.Close()` was called and the handler returned; no byte was sent. -/
  | closedNoAck
  /-- The no-placement branch (sink.go lines 326-330): `conn.Close()` is
  called, then `log.Printf` evaluates `plot.freeSpace` on the nil `plot`
  pointer, which is a nil-pointer dereference: the goroutine panics.
  No byte was sent and the connection was closed before the panic. -/
  | panicNilDeref
  deriving DecidableEq

/-- The placement phase of `handleConnection` (sink.go lines 309-361) for a
single connection, after the 8-byte size header has been read and decoded:
pick a destination group and path; if none, the branch closes the connection
and then dereferences the nil plot pointer in its log call; otherwise try-lock
the path (failure closes the connection); then increment the cache group's
transfer counter (line 348) and only afterwards call the cache group's
`pickPlot` (line 356); a nil cache pick closes the connection; otherwise the
handler proceeds to `handleTransfer` and the ack byte. -/
def handlePlacement (s : Sink) (size : Nat) : ConnOutcome :=
  match s.pickPlot size with
  | none => .panicNilDeref
  | some (pg, plot) =>
    if plot.mutexHeld then .closedNoAck
    else
      let cg := { s.cacheGroup with transfers := s.cacheGroup.transfers + 1 }
      match cg.pickPlot size with
      | none => .closedNoAck
      | some cachePlot => .acked pg plot cachePlot

/-- Whether the placement phase ends with the `0x01` ack byte being sent. -/
def ackSent : ConnOutcome → Bool
  | .acked _ _ _ => true
  | .closedNoAck => false
  | .panicNilDeref => false

/-- Whether the placement phase closed the connection without sending any
byte (true in both failure branches: the explicit closes, and the
no-placement branch which closes before its log statement panics). -/
def closedWithoutAck : ConnOutcome → Bool
  | .acked _ _ _ => false
  | .closedNoAck => true
  | .panicNilDeref => true

-- Characterization lemmas for the pick walk.

theorem pickFromSorted_eq (size : Nat) (l : List PlotPath) :
    pickFromSorted size l =
      match l.find? (fun v => !v.busy && !v.paused) with
      | none => none
      | some v => if size > v.freeSpace then none else some v := by
  induction l with
  | nil => rfl
  | cons v rest ih =>
    by_cases hb : v.busy <;> by_cases hp : v.paused <;>
      simp [pickFromSorted, List.find?_cons, hb, hp, ih]

theorem pickFromSorted_some (size : Nat) (l : List PlotPath) (v : PlotPath)
    (h : pickFromSorted size l = some v) :
    v.busy = false ∧ v.paused = false ∧ size ≤ v.freeSpace := by
  induction l with
  | nil => simp [pickFromSorted] at h
  | cons u rest ih =>
    by_cases hb : u.busy
    · exact ih (by simpa [pickFromSorted, hb] using h)
    · by_cases hp : u.paused
      · exact ih (by simpa [pickFromSorted, hb, hp] using h)
      · rw [pickFromSorted, if_neg (by simp [hb]), if_neg (by simp [hp])] at h
        by_cases hs : size > u.freeSpace
        · simp [hs] at h
        · rw [if_neg hs] at h
          cases h
          exact ⟨by simpa using hb, by simpa using hp, Nat.le_of_not_lt hs⟩

theorem find?_eligible_append (l₁ l₂ : List PlotPath) (v : PlotPath)
    (h : ∀ u ∈ l₁, u.busy = true ∨ u.paused = true)
    (hb : v.busy = false) (hp : v.paused = false) :
    (l₁ ++ v :: l₂).find? (fun u => !u.busy && !u.paused) = some v := by
  induction l₁ with
  | nil => simp [List.find?_cons, hb, hp]
  | cons u rest ih =>
    have hu := h u (by simp)
    have hrest : ∀ w ∈ rest, w.busy = true ∨ w.paused = true := by
      intro w hw
      exact h w (by simp [hw])
    rcases hu with hu | hu <;>
      simp [List.find?_cons, hu, ih hrest]

-- Concrete states used by counterexamples, code-bug evaluations and witnesses.

/-- A cache path with little free space, idle and eligible. -/
def cachePathSmall : PlotPath :=
  { path := "/mnt/plots/cache1", transfers := 0, busy := false, paused := false,
    freeSpace := 10, totalSpace := 100, mutexHeld := false }

/-- A cache group whose only path is eligible but small. -/
def cacheGroupSmall : PlotGroup :=
  { name := "cache", concurrency := 1, transfers := 0, sortedPlots := [cachePathSmall] }

/-- A roomy, idle, eligible cache path. -/
def cachePathBig : PlotPath :=
  { path := "/mnt/plots/cache1", transfers := 0, busy := false, paused := false,
    freeSpace := 1000000, totalSpace := 1000000, mutexHeld := false }

/-- A cache group with concurrency 1, no transfer in flight, one eligible path. -/
def cacheGroupOne : PlotGroup :=
  { name := "cache", concurrency := 1, transfers := 0, sortedPlots := [cachePathBig] }

/-- An idle, eligible destination path with 100 bytes free. -/
def destPath100 : PlotPath :=
  { path := "/mnt/local-chia01", transfers := 0, busy := false, paused := false,
    freeSpace := 100, totalSpace := 1000, mutexHeld := false }

/-- A destination group whose only path has exactly 100 bytes free. -/
def destGroup100 : PlotGroup :=
  { name := "local", concurrency := 1, transfers := 0, sortedPlots := [destPath100] }

/-- A roomy, idle, eligible destination path. -/
def destPathBig : PlotPath :=
  { path := "/mnt/local-chia01", transfers := 0, busy := false, paused := false,
    freeSpace := 1000000, totalSpace := 1000000, mutexHeld := false }

/-- A destination group with one roomy eligible path. -/
def destGroupBig : PlotGroup :=
  { name := "local", concurrency := 1, transfers := 0, sortedPlots := [destPathBig] }

/-- A sink with one roomy destination group and a cache group of concurrency 1. -/
def sinkConcOne : Sink :=
  { sortedGroups := [destGroupBig], cacheGroup := cacheGroupOne }

/-- A destination path too small for a 100-byte request. -/
def destPathTiny : PlotPath :=
  { path := "/mnt/local-chia01", transfers := 0, busy := false, paused := false,
    freeSpace := 10, totalSpace := 1000, mutexHeld := false }

/-- A destination group that cannot place a 100-byte request. -/
def destGroupTiny : PlotGroup :=
  { name := "local", concurrency := 1, transfers := 0, sortedPlots := [destPathTiny] }

/-- A sink for which `sink.pickPlot` finds no destination for a 100-byte plot. -/
def sinkNoRoom : Sink :=
  { sortedGroups := [destGroupTiny], cacheGroup := cacheGroupOne }

/-- The cache-pick behavior as the spec words it for claim C4: the first
non-busy, non-paused path in sorted order, for every size, with no
free-space abort. Defined only to be compared against the source's
`plotGroup.pickPlot`, which the cache group actually uses. -/
def specCachePick (pg : PlotGroup) : Option PlotPath :=
  if pg.transfers ≥ pg.concurrency then none
  else pg.sortedPlots.find? (fun v => !v.busy && !v.paused)

/-- Claim C4 fails on the code: the cache group uses the same
`plotGroup.pickPlot` as destinations, so the `size > freeSpace` abort does
apply. With one eligible cache path of 10 bytes free and a 100-byte request,
the spec-worded cache pick returns the path while the code returns nothing. -/
theorem cache_pick_size_abort_cex :
    PlotGroup.pickPlot cacheGroupSmall 100 = none ∧
    specCachePick cacheGroupSmall = some cachePathSmall := by
  exact ⟨rfl, rfl⟩

/-- Claim C4 amended: `plotGroup.pickPlot` — for cache and destination groups
alike — returns nothing when `transfers >= concurrency`, and otherwise
returns the first non-busy, non-paused path provided `size` does not exceed
its free space; if `size` exceeds that first eligible path's free space the
walk aborts with nothing. -/
theorem pickPlot_characterization (pg : PlotGroup) (size : Nat) :
    PlotGroup.pickPlot pg size =
      if pg.transfers ≥ pg.concurrency then none
      else
        match pg.sortedPlots.find? (fun v => !v.busy && !v.paused) with
        | none => none
        | some v => if size > v.freeSpace then none else some v := by
  unfold PlotGroup.pickPlot
  by_cases h : pg.transfers ≥ pg.concurrency
  · simp [h]
  · simp [h, pickFromSorted_eq]

/-- Claim C5, confirmed: a destination pick never returns a busy, paused or
too-small path (`free_space ≥ size` for every returned path), and the walk
returns nothing as soon as the first non-busy, non-paused candidate has
`free_space < size`. -/
theorem dest_pick_space_and_abort :
    (∀ (pg : PlotGroup) (size : Nat) (v : PlotPath),
        PlotGroup.pickPlot pg size = some v →
        v.busy = false ∧ v.paused = false ∧ size ≤ v.freeSpace) ∧
    (∀ (pg : PlotGroup) (size : Nat) (l₁ l₂ : List PlotPath) (v : PlotPath),
        pg.sortedPlots = l₁ ++ v :: l₂ →
        (∀ u ∈ l₁, u.busy = true ∨ u.paused = true) →
        v.busy = false → v.paused = false → v.freeSpace < size →
        PlotGroup.pickPlot pg size = none) := by
  constructor
  · intro pg size v h
    unfold PlotGroup.pickPlot at h
    by_cases hc : pg.transfers ≥ pg.concurrency
    · simp [hc] at h
    · rw [if_neg hc] at h
      exact pickFromSorted_some size pg.sortedPlots v h
  · intro pg size l₁ l₂ v hl hbusy hb hp hfree
    unfold PlotGroup.pickPlot
    by_cases hc : pg.transfers ≥ pg.concurrency
    · simp [hc]
    · rw [if_neg hc, pickFromSorted_eq, hl,
        find?_eligible_append l₁ l₂ v hbusy hb hp]
      simp [hfree]

/-- Witness for `dest_pick_space_and_abort`: a busy path followed by an
eligible path with 10 bytes free makes a 100-byte pick return nothing. -/
theorem dest_pick_space_and_abort_witness :
    PlotGroup.pickPlot
      { name := "local", concurrency := 2, transfers := 0,
        sortedPlots :=
          [{ path := "/mnt/local-chia00", transfers := 0, busy := true,
             paused := false, freeSpace := 500, totalSpace := 1000,
             mutexHeld := true }, destPathTiny] } 100 = none := by
  exact dest_pick_space_and_abort.2 _ 100
    [{ path := "/mnt/local-chia00", transfers := 0, busy := true,
       paused := false, freeSpace := 500, totalSpace := 1000,
       mutexHeld := true }] [] destPathTiny rfl
    (by intro u hu; simp at hu; subst hu; left; rfl) rfl rfl (by decide)

/-- Claim C8 fails on the code: the destination check is `size > free_space`,
so a declared size exactly equal to the candidate's free space passes and the
candidate is returned, and a declared size of 0 also passes and placement is
made. -/
theorem tie_and_zero_size_accepted_cex :
    PlotGroup.pickPlot destGroup100 100 = some destPath100 ∧
    PlotGroup.pickPlot destGroup100 0 = some destPath100 := by
  exact ⟨rfl, rfl⟩

/-- Claim C8 amended: the destination free-space check `size > free_space`
skips only strictly larger requests, so a declared size exactly equal to the
first eligible candidate's free space is treated as sufficient and that
candidate is returned; and a declared size of 0 always passes the space check,
so placement is made whenever the group is below its concurrency cap and has
an eligible path. -/
theorem tie_sufficient_zero_passes :
    (∀ (pg : PlotGroup) (v : PlotPath) (size : Nat),
        pg.transfers < pg.concurrency →
        pg.sortedPlots.find? (fun u => !u.busy && !u.paused) = some v →
        v.freeSpace = size →
        PlotGroup.pickPlot pg size = some v) ∧
    (∀ (pg : PlotGroup) (v : PlotPath),
        pg.transfers < pg.concurrency →
        pg.sortedPlots.find? (fun u => !u.busy && !u.paused) = some v →
        PlotGroup.pickPlot pg 0 = some v) := by
  constructor
  · intro pg v size hc hfind hsize
    rw [pickPlot_characterization, if_neg (not_le.mpr hc), hfind]
    simp [hsize]
  · intro pg v hc hfind
    rw [pickPlot_characterization, if_neg (not_le.mpr hc), hfind]
    simp

/-- Witness for `tie_sufficient_zero_passes`: the 100-byte-free destination
path is returned for a declared size of exactly 100. -/
theorem tie_sufficient_zero_passes_witness :
    PlotGroup.pickPlot destGroup100 100 = some destPath100 := by
  exact tie_sufficient_zero_passes.1 destGroup100 destPath100 100
    (by decide) rfl rfl

/-- Claim C1 is right and the code is wrong. Evaluating the handler at its
failing input — cache concurrency 1, no other connection in flight, a roomy
destination, a 50-byte request: the handler's own increment of
`cacheGroup.transfers` (sink.go line 348) precedes its cache pick (line 356),
so the pick's admission check sees `transfers = 1 >= concurrency = 1` and
returns nothing; the lone connection is closed without the ack byte. The
third conjunct shows that without the self-increment the same pick would
have returned the cache path. -/
theorem cache_admission_counts_self :
    handlePlacement sinkConcOne 50 = .closedNoAck ∧
    PlotGroup.pickPlot
      { cacheGroupOne with transfers := cacheGroupOne.transfers + 1 } 50 = none ∧
    PlotGroup.pickPlot cacheGroupOne 50 = some cachePathBig := by
  exact ⟨rfl, rfl, rfl⟩

/-- Claim C10 is right and the code is wrong. Evaluating the handler at its
failing input — a sink whose only destination path has 10 bytes free, a
100-byte request: `sink.pickPlot` returns nil, and the no-placement branch
(sink.go lines 326-330) closes the connection and then formats its log
message with `plot.freeSpace`, dereferencing the nil `plot` pointer: the
branch panics instead of returning cleanly. -/
theorem no_placement_branch_panics :
    Sink.pickPlot sinkNoRoom 100 = none ∧
    handlePlacement sinkNoRoom 100 = .panicNilDeref := by
  exact ⟨rfl, rfl⟩

/-- Claim C6, confirmed: the single `0x01` go-ahead byte is sent if and only
if placement fully succeeded — `sink.pickPlot` returned a destination group
and path, the path's mutex try-lock succeeded, and the cache group's pick
(after the handler's own transfer increment) returned a cache path; and
whenever the byte is not sent, the connection was closed (after the 8-byte
size header was read) without any byte being sent. -/
theorem ack_iff_placement_success (s : Sink) (size : Nat) :
    (ackSent (handlePlacement s size) = true ↔
      ∃ pg plot, s.pickPlot size = some (pg, plot) ∧
        plot.mutexHeld = false ∧
        (PlotGroup.pickPlot
          { s.cacheGroup with transfers := s.cacheGroup.transfers + 1 }
          size).isSome = true) ∧
    (ackSent (handlePlacement s size) = false →
      closedWithoutAck (handlePlacement s size) = true) := by
  constructor
  · unfold handlePlacement
    cases hpick : s.pickPlot size with
    | none => simp [ackSent, hpick]
    | some pr =>
      obtain ⟨pg, plot⟩ := pr
      by_cases hm : plot.mutexHeld
      · simp [ackSent, hm]
      · cases hcache : PlotGroup.pickPlot
          { s.cacheGroup with transfers := s.cacheGroup.transfers + 1 } size with
        | none => simp [ackSent, hm, hcache]
        | some cp =>
          simp only [ackSent, hcache, if_neg hm, Option.isSome_some, true_iff]
          exact ⟨pg, plot, rfl, by simpa using hm, by simp [hcache]⟩
  · intro h
    cases hout : handlePlacement s size with
    | acked pg plot cp => rw [hout] at h; simp [ackSent] at h
    | closedNoAck => rfl
    | panicNilDeref => rfl

/-- Witness for `ack_iff_placement_success`: on the no-room sink the ack is
not sent and the connection is closed without a byte. -/
theorem ack_iff_placement_success_witness :
    closedWithoutAck (handlePlacement sinkNoRoom 100) = true := by
  exact (ack_iff_placement_success sinkNoRoom 100).2 rfl



-- Pause semantics (plotpath.go lines 37-42).

/-- The pause interval of `plotPath.pause`: `time.AfterFunc(5*time.Minute, ...)`,
modelled in seconds. -/
def pauseDuration : Nat := 300

/-- One instant of the pause state machine for a fixed set of `pause()` call
times. At instant `s`, first every timer scheduled by a call at `c` with
`c + pauseDuration = s` fires and stores `paused = false` (each `pause()`
call schedules its own `time.AfterFunc` timer; pending timers are never
replaced or cancelled), then a `pause()` call at instant `s` stores
`paused = true`. -/
def pausedStep (calls : List Nat) (s : Nat) (prev : Bool) : Bool :=
  let afterFire := if calls.any (fun c => c + pauseDuration == s) then false else prev
  if calls.contains s then true else afterFire

/-- The `paused` flag of a plot path at time `t`, starting un-paused at time 0,
given the times of all `pause()` calls (plotpath.go lines 37-42). -/
def pausedAt (calls : List Nat) : Nat → Bool
  | 0 => pausedStep calls 0 false
  | t + 1 => pausedStep calls (t + 1) (pausedAt calls t)

theorem pausedAt_succ (calls : List Nat) (t : Nat) :
    pausedAt calls (t + 1) = pausedStep calls (t + 1) (pausedAt calls t) := rfl

theorem pausedStep_true_iff (calls : List Nat) (s : Nat) (prev : Bool) :
    pausedStep calls s prev = true ↔
      s ∈ calls ∨ ((∀ c ∈ calls, c + pauseDuration ≠ s) ∧ prev = true) := by
  unfold pausedStep
  by_cases hc : calls.contains s = true <;>
    by_cases hf : (calls.any fun c => c + pauseDuration == s) = true <;>
      simp_all [List.elem_iff]

theorem pausedStep_false_iff (calls : List Nat) (s : Nat) (prev : Bool) :
    pausedStep calls s prev = false ↔
      s ∉ calls ∧ ((∃ c ∈ calls, c + pauseDuration = s) ∨ prev = false) := by
  unfold pausedStep
  by_cases hc : calls.contains s = true <;>
    by_cases hf : (calls.any fun c => c + pauseDuration == s) = true <;>
      simp_all [List.elem_iff]

/-- Claim C2 fails on the code: with `pause()` called at times 0 and 100,
the first call's timer fires at 300 and stores `paused = false`, so the path
un-pauses at 300 even though the most recent pause's deadline is 400: the
timers do not coalesce. (At 299 the path is still paused.) -/
theorem pause_overlap_unpauses_early :
    pausedAt [0, 100] 299 = true ∧
    pausedAt [0, 100] 300 = false ∧
    300 < 100 + pauseDuration := by
  refine ⟨by set_option maxRecDepth 4000 in decide,
    by set_option maxRecDepth 4000 in decide, by decide⟩

/-- Claim C2 amended: `pause()` makes the path ineligible only until
5 minutes after the EARLIEST overlapping `pause()` call: each call schedules
its own un-pause timer and pending timers are never replaced or extended, so
with calls at `c1 < c2 < c1 + 5min` the path stays paused throughout
`[c1, c1 + 5min)` but un-pauses exactly at `c1 + 5min`, before the latest
pause's deadline `c2 + 5min`; while paused, `pick` never returns the path. -/
theorem pause_window_no_coalesce (c₁ c₂ : Nat) (h₁ : c₁ < c₂)
    (h₂ : c₂ < c₁ + pauseDuration) :
    (∀ t, c₁ ≤ t → t < c₁ + pauseDuration → pausedAt [c₁, c₂] t = true) ∧
    pausedAt [c₁, c₂] (c₁ + pauseDuration) = false ∧
    (∀ (pg : PlotGroup) (size : Nat) (v : PlotPath),
        PlotGroup.pickPlot pg size = some v → v.paused = false) := by
  refine ⟨?_, ?_, ?_⟩
  · intro t
    induction t with
    | zero =>
      intro hle _
      have hc : c₁ = 0 := Nat.le_zero.mp hle
      subst hc
      rw [show pausedAt [0, c₂] 0 = pausedStep [0, c₂] 0 false from rfl,
        pausedStep_true_iff]
      left
      simp
    | succ t ih =>
      intro hle hlt
      rw [pausedAt_succ, pausedStep_true_iff]
      rcases Nat.lt_or_ge t c₁ with hgt | hge
      · have hc : c₁ = t + 1 := by omega
        left
        simp [← hc]
      · right
        refine ⟨?_, ih hge (by omega)⟩
        intro c hcmem hceq
        simp only [pauseDuration] at hceq h₂ hlt
        simp only [List.mem_cons, List.not_mem_nil, or_false] at hcmem
        rcases hcmem with rfl | rfl <;> omega
  · have hsplit : c₁ + pauseDuration = (c₁ + 299) + 1 := by
      simp only [pauseDuration]
    rw [hsplit, pausedAt_succ, pausedStep_false_iff]
    constructor
    · intro hmem
      simp only [List.mem_cons, List.not_mem_nil, or_false, pauseDuration] at hmem h₂
      omega
    · left
      refine ⟨c₁, by simp, ?_⟩
      simp only [pauseDuration]
  · intro pg size v h
    unfold PlotGroup.pickPlot at h
    by_cases hc : pg.transfers ≥ pg.concurrency
    · simp [hc] at h
    · rw [if_neg hc] at h
      exact (pickFromSorted_some size pg.sortedPlots v h).2.1

/-- Witness for `pause_window_no_coalesce`: pauses at 0 and 100 keep the path
paused at 299 but un-pause it at 300, before the second pause's deadline. -/
theorem pause_window_no_coalesce_witness :
    pausedAt [0, 100] 299 = true ∧ pausedAt [0, 100] (0 + pauseDuration) = false := by
  have h := pause_window_no_coalesce 0 100 (by decide) (by decide)
  exact ⟨h.1 299 (by decide) (by decide), h.2.1⟩

-- Framing codec (src/unnamed/part_002) and the filename phase of
-- handleTransfer (sink.go lines 390-423).

/-- `convertBytesToInt16` (src/unnamed/part_002 lines 18-23):
`binary.Read(buf, binary.LittleEndian, &n)` into an `int16`. The two wire
bytes are `b0` (low) and `b1` (high); the result is the two's-complement
value of `b0 + 256*b1`. -/
def convertBytesToInt16 (b0 b1 : Nat) : Int :=
  let u := b0 % 256 + (b1 % 256) * 256
  if u < 32768 then (u : Int) else (u : Int) - 65536

/-- Outcome of the filename phase of `handleTransfer` (sink.go lines
396-423), which runs right after the `0x01` ack byte is written. -/
inductive TransferNameOutcome where
  /-- A `conn.Read` failed: the handler logs, returns false, and the deferred
  `conn.Close()` fires; no file was created. -/
  | failed
  /-- `make([]byte, fnlen)` with a negative decoded length: a Go runtime
  panic, not a clean rejection. -/
  | panicNegLen
  /-- The handler proceeds: `os.Remove(tmpfile)` then
  `os.OpenFile(tmpfile, O_WRONLY|O_EXCL|O_CREATE|O_DIRECT, 0644)` creates
  the file at `tmpfile = filepath.Join(cachePlot.path, filename+".tmp")`. -/
  | createsFile (tmpfile : String) (filename : String)
  deriving DecidableEq

/-- The filename phase of `handleTransfer` (sink.go lines 396-423): read
2 bytes, decode them with `convertBytesToInt16`, allocate a buffer of that
length (a Go runtime panic if negative), read that many bytes as the
filename, and open `<cachePlot.path>/<filename>.tmp` for writing. The
source performs no validation of the decoded length and no inspection of
the filename's characters; `filepath.Join` is modelled as string joining
with a separator. The wire bytes after the length field are `rest`; a read
past the available bytes is a read error. -/
def handleTransferNaming (cachePath : String) (b0 b1 : Nat)
    (rest : List Char) : TransferNameOutcome :=
  let fnlen := convertBytesToInt16 b0 b1
  if fnlen < 0 then .panicNegLen
  else if rest.length < fnlen.toNat then .failed
  else
    let filename := String.mk (rest.take fnlen.toNat)
    .createsFile (cachePath ++ "/" ++ filename ++ ".tmp") filename

/-- Claim C3 fails on the code: a received filename containing a path
separator is not rejected — with length field 3 and filename bytes `a/b`
the handler proceeds and creates `<cache>/a/b.tmp`, a file outside the flat
cache directory, instead of closing the connection. -/
theorem separator_filename_not_rejected_cex :
    handleTransferNaming "/mnt/plots/cache1" 3 0 ['a', '/', 'b'] =
      .createsFile "/mnt/plots/cache1/a/b.tmp" "a/b" ∧
    '/' ∈ "a/b".data := by
  exact ⟨rfl, by decide⟩

/-- Claim C3 amended: the per-connection handler performs no filename
validation at all: every filename whose bytes arrive in full — including
filenames containing path separators — is accepted, and the handler creates
`<cache>/<filename>.tmp` from it; nothing in this phase closes the
connection based on the filename's content. -/
theorem handleTransfer_accepts_any_filename (cachePath : String)
    (b0 b1 : Nat) (rest : List Char)
    (h0 : 0 ≤ convertBytesToInt16 b0 b1)
    (h1 : (convertBytesToInt16 b0 b1).toNat ≤ rest.length) :
    handleTransferNaming cachePath b0 b1 rest =
      .createsFile
        (cachePath ++ "/" ++
          String.mk (rest.take (convertBytesToInt16 b0 b1).toNat) ++ ".tmp")
        (String.mk (rest.take (convertBytesToInt16 b0 b1).toNat)) := by
  unfold handleTransferNaming
  rw [if_neg (not_lt.mpr h0), if_neg (not_lt.mpr h1)]

/-- Witness for `handleTransfer_accepts_any_filename`: the separator-bearing
filename `a/b` is accepted and `<cache>/a/b.tmp` is created. -/
theorem handleTransfer_accepts_any_filename_witness :
    handleTransferNaming "/c" 3 0 ['a', '/', 'b'] =
      .createsFile ("/c" ++ "/" ++ String.mk ['a', '/', 'b'] ++ ".tmp")
        (String.mk ['a', '/', 'b']) := by
  exact handleTransfer_accepts_any_filename "/c" 3 0 ['a', '/', 'b']
    (by decide) (by decide)

/-- Claim C9 fails on the code: the decoded filename length is never
range-checked. A length field of 0 (bytes `00 00`) is not rejected: the
handler proceeds with the empty filename and creates `<cache>/.tmp`. -/
theorem fnlen_zero_not_rejected_cex :
    convertBytesToInt16 0 0 = 0 ∧
    handleTransferNaming "/mnt/plots/cache1" 0 0 [] =
      .createsFile "/mnt/plots/cache1/.tmp" "" := by
  exact ⟨rfl, rfl⟩

/-- Claim C9 amended: the 2-byte field is decoded as a little-endian signed
16-bit integer (low byte plus 256 times the high byte, two's complement),
but no acceptance window is enforced: any non-negative decoded length,
including 0, proceeds (0 with an empty filename), and a negative decoded
length (high byte at least 0x80) is a runtime panic in `make([]byte, n)`
rather than a rejection. -/
theorem fnlen_decode_and_no_validation :
    (∀ b0 b1 : Nat, b0 < 256 → b1 < 128 →
      convertBytesToInt16 b0 b1 = b0 + 256 * b1) ∧
    (∀ b0 b1 : Nat, b0 < 256 → 128 ≤ b1 → b1 < 256 →
      convertBytesToInt16 b0 b1 = (b0 : Int) + 256 * b1 - 65536) ∧
    (∀ (cachePath : String) (b0 b1 : Nat) (rest : List Char),
      convertBytesToInt16 b0 b1 < 0 →
      handleTransferNaming cachePath b0 b1 rest = .panicNegLen) ∧
    (∀ (cachePath : String) (rest : List Char),
      handleTransferNaming cachePath 0 0 rest =
        .createsFile (cachePath ++ "/" ++ String.mk [] ++ ".tmp")
          (String.mk [])) := by
  refine ⟨?_, ?_, ?_, ?_⟩
  · intro b0 b1 hb0 hb1
    unfold convertBytesToInt16
    have h0 : b0 % 256 = b0 := Nat.mod_eq_of_lt hb0
    have h1 : b1 % 256 = b1 := Nat.mod_eq_of_lt (by omega)
    rw [h0, h1, if_pos (by omega)]
    push_cast
    ring
  · intro b0 b1 hb0 hb1l hb1u
    unfold convertBytesToInt16
    have h0 : b0 % 256 = b0 := Nat.mod_eq_of_lt hb0
    have h1 : b1 % 256 = b1 := Nat.mod_eq_of_lt hb1u
    rw [h0, h1, if_neg (by omega)]
    push_cast
    ring
  · intro cachePath b0 b1 rest hneg
    unfold handleTransferNaming
    rw [if_pos hneg]
  · intro cachePath rest
    rfl

/-- Witness for `fnlen_decode_and_no_validation`: bytes `05 01` decode to
261, bytes `00 80` decode to -32768 and make the handler panic, and a zero
length field creates `<cache>/.tmp`. -/
theorem fnlen_decode_and_no_validation_witness :
    convertBytesToInt16 5 1 = 5 + 256 * 1 ∧
    handleTransferNaming "/c" 0 128 [] = .panicNegLen ∧
    handleTransferNaming "/c" 0 0 [] =
      .createsFile ("/c" ++ "/" ++ String.mk [] ++ ".tmp") (String.mk []) := by
  exact ⟨fnlen_decode_and_no_validation.1 5 1 (by decide) (by decide),
    fnlen_decode_and_no_validation.2.2.1 "/c" 0 128 [] (by decide),
    fnlen_decode_and_no_validation.2.2.2 "/c" []⟩


-- Filesystem model for the receive-then-move pipeline (sink.go lines
-- 367-384, 390-465, 471-528): a finite map from absolute path to byte
-- length, as an association list (first entry for a path wins).

/-- The filesystem: each entry is a path and its file's byte length. -/
abbrev FS := List (String × Nat)

/-- The byte length of the file at `p`, if it exists. -/
def fsLookup : FS → String → Option Nat
  | [], _ => none
  | e :: fs, p => if e.1 = p then some e.2 else fsLookup fs p

/-- `os.Remove p` (idempotent in the model; the source ignores its error). -/
def fsRemove : FS → String → FS
  | [], _ => []
  | e :: fs, p => if e.1 = p then fsRemove fs p else e :: fsRemove fs p

/-- Create-or-truncate `p` and write `n` bytes to it. -/
def fsSet (fs : FS) (p : String) (n : Nat) : FS :=
  (p, n) :: fsRemove fs p

/-- `os.Rename src dst`: fails when `src` does not exist; replaces `dst`. -/
def fsRename (fs : FS) (src dst : String) : Option FS :=
  match fsLookup fs src with
  | none => none
  | some n => some (fsSet (fsRemove fs src) dst n)

theorem fsLookup_remove_self (fs : FS) (p : String) :
    fsLookup (fsRemove fs p) p = none := by
  induction fs with
  | nil => rfl
  | cons e fs ih =>
    by_cases h : e.1 = p <;> simp [fsRemove, fsLookup, h, ih]

theorem fsLookup_remove_other (fs : FS) (p q : String) (h : q ≠ p) :
    fsLookup (fsRemove fs p) q = fsLookup fs q := by
  have hpq : ¬ p = q := fun hc => h hc.symm
  induction fs with
  | nil => rfl
  | cons e fs ih =>
    by_cases he : e.1 = p
    · have hq : ¬ e.1 = q := by rw [he]; exact hpq
      simp [fsRemove, fsLookup, he, hq, hpq, ih]
    · by_cases hq : e.1 = q <;> simp [fsRemove, fsLookup, he, hq, hpq, h, ih]

theorem fsLookup_set_self (fs : FS) (p : String) (n : Nat) :
    fsLookup (fsSet fs p n) p = some n := by
  simp [fsSet, fsLookup]

theorem fsLookup_set_other (fs : FS) (p q : String) (n : Nat) (h : q ≠ p) :
    fsLookup (fsSet fs p n) q = fsLookup fs q := by
  have hpq : ¬ p = q := fun hc => h hc.symm
  simp [fsSet, fsLookup, hpq, fsLookup_remove_other fs p q h]

/-- `filepath.Join` for one directory and one clean path component. -/
def joinPath (dir nm : String) : String := dir ++ "/" ++ nm

/-- The success path of `handleTransfer`'s file phase (sink.go lines
414-464) on the model filesystem: `os.Remove(tmpfile)`, create `tmpfile`
exclusively and write the whole received stream (`payload` bytes) to it,
then `os.Rename(tmpfile, dstfile)` and return `dstfile` — the post-rename
cache name — as the handler's `tmpfile` result. The `tmpfile` and
`dstfile` strings are computed by the caller (in the source they are
joined inside the function; hoisting the join is a pure refactor). I/O
errors abort the handler and are outside this success path. -/
def handleTransferFS (fs : FS) (tmpfile dstfile : String) (payload : Nat) :
    Option (FS × String) :=
  match fsRename (fsSet (fsRemove fs tmpfile) tmpfile payload) tmpfile dstfile with
  | none => none
  | some fs2 => some (fs2, dstfile)

/-- The success path of `handleMove` (sink.go lines 471-528) on the model
filesystem: open `src` (the cache-side file), create `tmpdstfile`
exclusively (`O_EXCL`: fails when it already exists), copy the `n` bytes,
then `os.Rename(tmpdstfile, dstfile)`. -/
def handleMoveFS (fs : FS) (tmpdstfile dstfile src : String) : Option FS :=
  match fsLookup fs src with
  | none => none
  | some n =>
    match fsLookup fs tmpdstfile with
    | some _ => none
    | none => fsRename (fsSet fs tmpdstfile n) tmpdstfile dstfile

/-- The composition of the two stages followed by `os.Remove(tmpfile)` on
success, where `tmpfile` holds `handleTransfer`'s returned post-rename
cache name (sink.go lines 367-378). -/
def pipelineSteps (fs : FS) (ct cf dt df : String) (payload : Nat) : Option FS :=
  match handleTransferFS fs ct cf payload with
  | none => none
  | some (fs1, src) =>
    match handleMoveFS fs1 dt df src with
    | none => none
    | some fs2 => some (fsRemove fs2 src)

/-- The whole per-connection file pipeline for cache path `cachePath`,
destination path `destPath` and filename `filename`: the four involved
names are `<cache>/<name>.tmp`, `<cache>/<name>`, `<dest>/<name>.tmp`
and `<dest>/<name>`. -/
def transferPipeline (fs : FS) (cachePath destPath filename : String)
    (payload : Nat) : Option FS :=
  pipelineSteps fs (joinPath cachePath filename ++ ".tmp")
    (joinPath cachePath filename)
    (joinPath destPath filename ++ ".tmp")
    (joinPath destPath filename) payload

theorem pipelineSteps_final (fs : FS) (ct cf dt df : String) (size : Nat)
    (h1 : ct ≠ cf) (h2 : ct ≠ dt) (h3 : ct ≠ df) (h4 : cf ≠ dt)
    (h5 : cf ≠ df) (h6 : dt ≠ df) (hfree : fsLookup fs dt = none) :
    ∃ fs', pipelineSteps fs ct cf dt df size = some fs' ∧
      fsLookup fs' ct = none ∧ fsLookup fs' cf = none ∧
      fsLookup fs' dt = none ∧ fsLookup fs' df = some size := by
  have e1 : fsRename (fsSet (fsRemove fs ct) ct size) ct cf =
      some (fsSet (fsRemove (fsSet (fsRemove fs ct) ct size) ct) cf size) := by
    simp only [fsRename, fsLookup_set_self]
  set A : FS := fsSet (fsRemove fs ct) ct size with hA
  set fs1 : FS := fsSet (fsRemove A ct) cf size with hfs1
  have hsrc : fsLookup fs1 cf = some size := fsLookup_set_self _ _ _
  have hdt1 : fsLookup fs1 dt = none := by
    rw [hfs1, fsLookup_set_other _ _ _ _ h4.symm,
      fsLookup_remove_other _ _ _ h2.symm, hA,
      fsLookup_set_other _ _ _ _ h2.symm,
      fsLookup_remove_other _ _ _ h2.symm]
    exact hfree
  have e2 : handleMoveFS fs1 dt df cf =
      some (fsSet (fsRemove (fsSet fs1 dt size) dt) df size) := by
    simp only [handleMoveFS, hsrc, hdt1, fsRename, fsLookup_set_self]
  set fs2 : FS := fsSet (fsRemove (fsSet fs1 dt size) dt) df size with hfs2
  refine ⟨fsRemove fs2 cf, ?_, ?_, ?_, ?_, ?_⟩
  · simp only [pipelineSteps, handleTransferFS, e1, e2]
  · rw [fsLookup_remove_other _ _ _ h1, hfs2,
      fsLookup_set_other _ _ _ _ h3,
      fsLookup_remove_other _ _ _ h2,
      fsLookup_set_other _ _ _ _ h2, hfs1,
      fsLookup_set_other _ _ _ _ h1]
    exact fsLookup_remove_self _ _
  · exact fsLookup_remove_self _ _
  · rw [fsLookup_remove_other _ _ _ h4.symm, hfs2,
      fsLookup_set_other _ _ _ _ h6]
    exact fsLookup_remove_self _ _
  · rw [fsLookup_remove_other _ _ _ h5.symm, hfs2]
    exact fsLookup_set_self _ _ _

/-- Claim C7, confirmed: when a transfer completes successfully — both
copies succeed and the payload delivered equals the declared `size` — none
of `<cache>/<name>.tmp`, `<cache>/<name>` or `<dest>/<name>.tmp` exists
afterwards; only `<dest>/<name>` exists, with `size` bytes. In particular
the final `os.Remove` receives `handleTransfer`'s post-rename cache name,
so the cache copy is removed under its non-.tmp name. -/
theorem transfer_success_final_state
    (fs : FS) (cachePath destPath filename : String) (size : Nat)
    (cacheTmp cacheFinal destTmp destFinal : String)
    (hct : cacheTmp = joinPath cachePath filename ++ ".tmp")
    (hcf : cacheFinal = joinPath cachePath filename)
    (hdt : destTmp = joinPath destPath filename ++ ".tmp")
    (hdf : destFinal = joinPath destPath filename)
    (h1 : cacheTmp ≠ cacheFinal) (h2 : cacheTmp ≠ destTmp)
    (h3 : cacheTmp ≠ destFinal) (h4 : cacheFinal ≠ destTmp)
    (h5 : cacheFinal ≠ destFinal) (h6 : destTmp ≠ destFinal)
    (hfree : fsLookup fs destTmp = none) :
    ∃ fs', transferPipeline fs cachePath destPath filename size = some fs' ∧
      fsLookup fs' cacheTmp = none ∧ fsLookup fs' cacheFinal = none ∧
      fsLookup fs' destTmp = none ∧ fsLookup fs' destFinal = some size := by
  subst hct hcf hdt hdf
  unfold transferPipeline
  exact pipelineSteps_final fs _ _ _ _ size h1 h2 h3 h4 h5 h6 hfree

/-- Witness for `transfer_success_final_state`: one 1024-byte plot `p01`
through cache `/c` and destination `/d` starting from an empty filesystem. -/
theorem transfer_success_final_state_witness :
    ∃ fs', transferPipeline [] "/c" "/d" "p01" 1024 = some fs' ∧
      fsLookup fs' (joinPath "/c" "p01" ++ ".tmp") = none ∧
      fsLookup fs' (joinPath "/c" "p01") = none ∧
      fsLookup fs' (joinPath "/d" "p01" ++ ".tmp") = none ∧
      fsLookup fs' (joinPath "/d" "p01") = some 1024 := by
  exact transfer_success_final_state [] "/c" "/d" "p01" 1024 _ _ _ _
    rfl rfl rfl rfl (by decide) (by decide) (by decide) (by decide)
    (by decide) (by decide) rfl
